import Mathlib

/-!
Verification of the session supervisor in `src/srt-server.js`
(class `SRTServer`, lines 22-172).

The JavaScript code is shallowly embedded as follows.

* `Stats` mirrors `this.stats` (fields `startTime`, `isLive`, `currentFile`).
* `SRTServer` mirrors the class instance state (`this.ffmpegProcess`,
  `this.stats`).  A process handle is modelled as an opaque `Nat` pid.
* `World` carries the instance state together with the outside state the
  code touches: the contents of the HLS directory, a fixed oracle saying
  which `fs.unlinkSync` calls throw, the pending `setTimeout` restart
  callbacks, and logs of the observable side effects (spawns, kills,
  deletions, warning lines).
* The timestamp string produced from `new Date()` at spawn time is
  abstracted to `toString` of the numeric clock, and `path.join` to string
  concatenation with a slash; only the fact that the recording path is a
  function of the spawn-time clock matters to the claims.
* Each event handler registered in `start()` becomes one transition
  function; `step` dispatches external events (stderr data chunks, process
  close, spawn-failure error, restart-timer firing, external `stop()`
  calls) to the handler the code registers for them.  Handlers close over
  the session output file `outputFile`; this closure is modelled by the
  `sessions` association list from pid to output file, and an event for a
  pid with no registered handler is a no-op (such an event cannot occur).
-/

namespace SRTStream

/-- `sub` occurs as a contiguous run somewhere in `l`. -/
def listIncludes (sub : List Char) : List Char → Bool
  | [] => sub.isEmpty
  | c :: rest => sub.isPrefixOf (c :: rest) || listIncludes sub rest

/-- `a.includes(b)` on JavaScript strings: substring containment. -/
def includes (s sub : String) : Bool :=
  listIncludes sub.toList s.toList

/-- `a.endsWith(b)` on JavaScript strings, as a suffix check on the
character lists. -/
def endsWith (s suffix : String) : Bool :=
  suffix.toList.reverse.isPrefixOf s.toList.reverse

/-- A file matches the cleanup filter of `clearHLSBuffer`:
`file.endsWith(".ts") || file.endsWith(".m3u8")` (line 39). -/
def isHLSFile (f : String) : Bool :=
  endsWith f ".ts" || endsWith f ".m3u8"

/-- The `files.forEach` loop of `clearHLSBuffer` (lines 36-43), with the
surrounding `try`/`catch` of lines 35-47.  `fails f` says that
`fs.unlinkSync` on `f` throws.  The loop walks the directory listing in
order deleting matching files; a throwing `unlinkSync` escapes the
`forEach` and lands in the `catch`, so the files from the failing one on
are left untouched.  Returns (remaining directory contents, files deleted
in order). -/
def clearLoop (fails : String → Bool) : List String → List String × List String
  | [] => ([], [])
  | f :: rest =>
    if isHLSFile f then
      if fails f then
        (f :: rest, [])
      else
        let r := clearLoop fails rest
        (r.1, f :: r.2)
    else
      let r := clearLoop fails rest
      (f :: r.1, r.2)

/-- `this.stats` (lines 25-29). -/
structure Stats where
  startTime : Option Nat
  isLive : Bool
  currentFile : Option String
  deriving Repr, DecidableEq

/-- The instance fields of class `SRTServer` (lines 23-30). -/
structure SRTServer where
  ffmpegProcess : Option Nat
  stats : Stats
  deriving Repr, DecidableEq

/-- The instance state together with the environment the code interacts
with.  The latter part records the externally visible effects the claims
talk about. -/
structure World where
  srv : SRTServer
  /-- listing of `CONFIG.hlsDir`, in directory order -/
  hlsFiles : List String
  /-- which `fs.unlinkSync` calls throw (fixed for the run) -/
  unlinkFails : String → Bool
  /-- pid the next `spawn` returns -/
  nextPid : Nat
  /-- pid ↦ the `outputFile` closed over by that spawn's handlers -/
  sessions : List (Nat × String)
  /-- pids passed to `spawn`, in order -/
  spawnLog : List Nat
  /-- pids sent SIGTERM by `stop()`, in order -/
  killLog : List Nat
  /-- files actually unlinked, cumulative, in order -/
  deleteLog : List String
  /-- number of `clearHLSBuffer()` invocations -/
  clearCalls : Nat
  /-- number of scheduled-but-unfired restart `setTimeout` callbacks -/
  pendingRestarts : Nat
  /-- number of `[Error]` warning lines printed by the stderr handler -/
  errorLog : Nat
  /-- number of `Failed to start FFmpeg` reports from the error handler -/
  spawnFailLog : Nat

/-- `clearHLSBuffer()` (lines 33-48) as a state transformer: runs the
deletion loop under the `try`/`catch` and records the effects. -/
def clearHLSBuffer (w : World) : World :=
  let r := clearLoop w.unlinkFails w.hlsFiles
  { w with
    hlsFiles := r.1
    deleteLog := w.deleteLog ++ r.2
    clearCalls := w.clearCalls + 1 }

/-- The recording path computed at spawn time (lines 56-57):
`path.join(CONFIG.outputDir, "stream-" + timestamp + ".mp4")`, with the
ISO timestamp abstracted to the numeric clock. -/
def outputFileAt (now : Nat) : String :=
  "./streams/" ++ "stream-" ++ toString now ++ ".mp4"

/-- `start()` (lines 50-155): clears the HLS buffer, computes the
timestamped `outputFile`, spawns ffmpeg and registers the handlers for
the new child (modelled by the `sessions` entry). -/
def start (now : Nat) (w : World) : World :=
  let w1 := clearHLSBuffer w
  let outFile := outputFileAt now
  let pid := w1.nextPid
  { w1 with
    srv := { w1.srv with ffmpegProcess := some pid }
    nextPid := pid + 1
    sessions := (pid, outFile) :: w1.sessions
    spawnLog := w1.spawnLog ++ [pid] }

/-- Marker test of the progress branch (line 114):
`output.includes("frame=") || output.includes("time=")`. -/
def hasProgressMarker (chunk : String) : Bool :=
  includes chunk "frame=" || includes chunk "time="

/-- Marker test of the warning branch (line 127):
`output.includes("error") || output.includes("Error")`. -/
def hasErrorMarker (chunk : String) : Bool :=
  includes chunk "error" || includes chunk "Error"

/-- The stderr `data` handler registered at lines 111-130, for the child
`pid` whose closure holds `outFile`.  On a progress chunk while not live
it sets `isLive`, `startTime := Date.now()` and
`currentFile := outputFile`; on a chunk with an error marker and no
progress marker it prints an `[Error]` warning. -/
def onStderrData (now : Nat) (pid : Nat) (chunk : String) (w : World) : World :=
  match w.sessions.lookup pid with
  | none => w
  | some outFile =>
    if hasProgressMarker chunk then
      if !w.srv.stats.isLive then
        { w with srv := { w.srv with
            stats := { startTime := some now, isLive := true,
                       currentFile := some outFile } } }
      else w
    else if hasErrorMarker chunk then
      { w with errorLog := w.errorLog + 1 }
    else w

/-- The `close` handler registered at lines 132-146: sets
`isLive := false` (the exit code is only logged), clears the HLS buffer,
then schedules a restart `setTimeout`.  It touches neither `startTime`
nor `currentFile`. -/
def onClose (pid : Nat) (_code : Int) (w : World) : World :=
  match w.sessions.lookup pid with
  | none => w
  | some _ =>
    let w1 := { w with srv := { w.srv with
                  stats := { w.srv.stats with isLive := false } } }
    let w2 := clearHLSBuffer w1
    { w2 with pendingRestarts := w2.pendingRestarts + 1 }

/-- The `error` handler registered at lines 148-150: only prints
`Failed to start FFmpeg`; no state change, no cleanup, no restart. -/
def onSpawnError (pid : Nat) (w : World) : World :=
  match w.sessions.lookup pid with
  | none => w
  | some _ => { w with spawnFailLog := w.spawnFailLog + 1 }

/-- A pending restart `setTimeout` callback fires (lines 142-145): it
calls `this.start()` unconditionally, with no check that the server is
still active. -/
def onRestartTimer (now : Nat) (w : World) : World :=
  if w.pendingRestarts = 0 then w
  else start now { w with pendingRestarts := w.pendingRestarts - 1 }

/-- `stop()` (lines 157-164): if a handle is held, sends SIGTERM and
nulls it; then always calls `clearHLSBuffer()`. -/
def stop (w : World) : World :=
  let w1 :=
    match w.srv.ffmpegProcess with
    | some pid =>
      { w with
        srv := { w.srv with ffmpegProcess := none }
        killLog := w.killLog ++ [pid] }
    | none => w
  clearHLSBuffer w1

/-- The snapshot returned by `getStats()` (lines 166-171). -/
structure StatsView where
  startTime : Option Nat
  isLive : Bool
  currentFile : Option String
  uptime : Nat
  deriving Repr, DecidableEq

/-- `getStats()` (lines 166-171): spreads `this.stats` into a fresh
object and adds `uptime`.  A pure read. -/
def getStats (now : Nat) (w : World) : StatsView :=
  { startTime := w.srv.stats.startTime
    isLive := w.srv.stats.isLive
    currentFile := w.srv.stats.currentFile
    uptime :=
      match w.srv.stats.startTime with
      | some t => now - t
      | none => 0 }

/-- The `/api/stats` route handler (lines 786-788) as a step of the
system: it returns `srtServer.getStats()` and performs no write. -/
def apiStatsStep (now : Nat) (w : World) : StatsView × World :=
  (getStats now w, w)

/-- External events delivered to the supervisor by the runtime. -/
inductive Ev where
  /-- a chunk arrives on the stderr stream of child `pid` -/
  | stderrData (pid : Nat) (chunk : String)
  /-- child `pid` closes with the given exit code -/
  | close (pid : Nat) (code : Int)
  /-- the spawn-failure `error` event of child `pid` -/
  | spawnError (pid : Nat)
  /-- a pending restart timer fires -/
  | restartTimer
  /-- an external `stop()` call (signal handlers, lines 796-805) -/
  | stopCall
  deriving Repr, DecidableEq

/-- Dispatch one event to the handler the code registers for it. -/
def step (now : Nat) (e : Ev) (w : World) : World :=
  match e with
  | .stderrData pid chunk => onStderrData now pid chunk w
  | .close pid code => onClose pid code w
  | .spawnError pid => onSpawnError pid w
  | .restartTimer => onRestartTimer now w
  | .stopCall => stop w

/-- Run a timed event trace. -/
def run (w : World) : List (Nat × Ev) → World
  | [] => w
  | (t, e) :: tr => run (step t e w) tr

/-- The state right after `new SRTServer()` (lines 23-30, 174), with a
given directory listing and unlink-failure oracle. -/
def initWorld (fails : String → Bool) (files : List String) : World :=
  { srv := { ffmpegProcess := none
             stats := { startTime := none, isLive := false, currentFile := none } }
    hlsFiles := files
    unlinkFails := fails
    nextPid := 0
    sessions := []
    spawnLog := []
    killLog := []
    deleteLog := []
    clearCalls := 0
    pendingRestarts := 0
    errorLog := 0
    spawnFailLog := 0 }

/-- The state after module load: `new SRTServer()` followed by
`srtServer.start()` (lines 174-175) at clock `t0`. -/
def boot (t0 : Nat) (fails : String → Bool) (files : List String) : World :=
  start t0 (initWorld fails files)

/-! ## Helper lemmas -/

/-- `start` never writes `this.stats`: it only clears the buffer, spawns
and stores the new handle. -/
theorem start_srv_stats (now : Nat) (w : World) :
    (start now w).srv.stats = w.srv.stats := rfl

/-- `stop` never writes `this.stats`. -/
theorem stop_srv_stats (w : World) :
    (stop w).srv.stats = w.srv.stats := by
  unfold stop
  cases h : w.srv.ffmpegProcess <;> simp [clearHLSBuffer]

/-- `stop` does not cancel nor add restart timers. -/
theorem stop_pendingRestarts (w : World) :
    (stop w).pendingRestarts = w.pendingRestarts := by
  unfold stop
  cases h : w.srv.ffmpegProcess <;> simp [clearHLSBuffer]

/-- `stop` performs no spawn. -/
theorem stop_spawnLog (w : World) :
    (stop w).spawnLog = w.spawnLog := by
  unfold stop
  cases h : w.srv.ffmpegProcess <;> simp [clearHLSBuffer]

/-- `stop` keeps the unlink oracle and whatever it did to the files. -/
theorem stop_unlinkFails (w : World) :
    (stop w).unlinkFails = w.unlinkFails := by
  unfold stop
  cases h : w.srv.ffmpegProcess <;> simp [clearHLSBuffer]

/-- `stop` leaves the directory exactly `clearLoop`-ed once. -/
theorem stop_hlsFiles (w : World) :
    (stop w).hlsFiles = (clearLoop w.unlinkFails w.hlsFiles).1 := by
  unfold stop
  cases h : w.srv.ffmpegProcess <;> simp [clearHLSBuffer]

/-- `stop` appends the deletions of one cleanup invocation. -/
theorem stop_deleteLog (w : World) :
    (stop w).deleteLog = w.deleteLog ++ (clearLoop w.unlinkFails w.hlsFiles).2 := by
  unfold stop
  cases h : w.srv.ffmpegProcess <;> simp [clearHLSBuffer]

/-- After `stop` the handle is always released. -/
theorem stop_ffmpegProcess (w : World) :
    (stop w).srv.ffmpegProcess = none := by
  unfold stop
  cases h : w.srv.ffmpegProcess <;> simp [clearHLSBuffer, h]

/-- `start` spawns exactly one child, with the next fresh pid. -/
theorem start_spawnLog (now : Nat) (w : World) :
    (start now w).spawnLog = w.spawnLog ++ [w.nextPid] := rfl

/-- A `stop()` that finds the handle already null sends no signal. -/
theorem stop_killLog_of_none (w : World) (h : w.srv.ffmpegProcess = none) :
    (stop w).killLog = w.killLog := by
  unfold stop
  simp [h, clearHLSBuffer]

/-- Running the cleanup loop on what a first run left behind deletes
nothing further: the first run stopped either at the end of the listing
or at a file whose deletion throws, and with a fixed failure oracle the
second run stops at that same file at once. -/
theorem clearLoop_idem (fails : String → Bool) (fs : List String) :
    clearLoop fails (clearLoop fails fs).1 = ((clearLoop fails fs).1, []) := by
  induction fs with
  | nil => rfl
  | cons f rest ih =>
    by_cases hm : isHLSFile f = true
    · by_cases hf : fails f = true
      · simp [clearLoop, hm, hf]
      · simp [clearLoop, hm, hf] at ih ⊢
        exact ih
    · simp [clearLoop, hm] at ih ⊢
      simp [ih]

/-! ## Claims -/

/-- **C1, counterexample.**  The claimed invariant — `stats.startTime`
is non-null iff `stats.isLive` — fails on a reachable state: boot the
server at clock 0 over an empty HLS directory, deliver one progress
chunk at clock 1 (the stream goes live), then let ffmpeg exit with code
0 at clock 2.  The `close` handler resets `isLive` but never resets
`startTime`, so the state right after the exit has `isLive = false` with
`startTime = some 1`. -/
theorem C1_counterexample :
    ((run (boot 0 (fun _ => false) [])
        [(1, Ev.stderrData 0 "frame=  12"), (2, Ev.close 0 0)]).srv.stats.isLive = false)
    ∧ ((run (boot 0 (fun _ => false) [])
        [(1, Ev.stderrData 0 "frame=  12"), (2, Ev.close 0 0)]).srv.stats.startTime
        = some 1) := by
  constructor <;> rfl

/-- The one-step preservation behind the amended C1: every handler that
makes `isLive` true simultaneously sets `startTime`. -/
theorem liveImpliesStartTime_step (t : Nat) (e : Ev) (w : World)
    (ih : w.srv.stats.isLive = true → (w.srv.stats.startTime).isSome = true) :
    (step t e w).srv.stats.isLive = true →
    ((step t e w).srv.stats.startTime).isSome = true := by
  cases e with
  | stderrData pid chunk =>
    simp only [step, onStderrData]
    cases h : w.sessions.lookup pid with
    | none => exact ih
    | some outFile =>
      by_cases hp : hasProgressMarker chunk = true
      · by_cases hl : w.srv.stats.isLive = true
        · simp [hp, hl]
          exact ih hl
        · simp at hl
          simp [hp, hl]
      · simp at hp
        by_cases he : hasErrorMarker chunk = true <;> simp [hp, he] <;> exact ih
  | close pid code =>
    simp only [step, onClose]
    cases h : w.sessions.lookup pid with
    | none => exact ih
    | some outFile => simp [clearHLSBuffer]
  | spawnError pid =>
    simp only [step, onSpawnError]
    cases h : w.sessions.lookup pid with
    | none => exact ih
    | some outFile => simpa using ih
  | restartTimer =>
    simp only [step, onRestartTimer]
    by_cases h : w.pendingRestarts = 0
    · simp [h]; exact ih
    · simp [h, start_srv_stats]
      exact ih
  | stopCall =>
    simp only [step]
    rw [stop_srv_stats]
    exact ih

/-- **C1, amended.**  One direction of the claimed invariant does hold
on every reachable state: whenever the session is Live, `startTime` is
non-null (they are set together by the first-frame branch).  The
converse direction is false — after a live session's engine exits, the
`close` handler leaves `startTime` set while `isLive` is false — so
"non-null iff Live" must weaken to "Live implies non-null". -/
theorem C1_live_implies_startTime (t0 : Nat) (fails : String → Bool)
    (files : List String) (tr : List (Nat × Ev)) :
    (run (boot t0 fails files) tr).srv.stats.isLive = true →
    ((run (boot t0 fails files) tr).srv.stats.startTime).isSome = true := by
  have base : (boot t0 fails files).srv.stats.isLive = true →
      ((boot t0 fails files).srv.stats.startTime).isSome = true := by
    intro h
    simp [boot, start_srv_stats, initWorld] at h
  have main : ∀ (w : World) (tr : List (Nat × Ev)),
      (w.srv.stats.isLive = true → (w.srv.stats.startTime).isSome = true) →
      (run w tr).srv.stats.isLive = true →
      ((run w tr).srv.stats.startTime).isSome = true := by
    intro w tr
    induction tr generalizing w with
    | nil => intro h; exact h
    | cons te rest ih =>
      intro h
      exact ih (step te.1 te.2 w) (liveImpliesStartTime_step te.1 te.2 w h)
  exact main (boot t0 fails files) tr base

/-- **C1, witness.**  The amended theorem applied to a concrete trace in
which the hypothesis holds: after one progress chunk the session is Live
and `startTime` is indeed non-null. -/
theorem C1_witness :
    ((run (boot 0 (fun _ => false) [])
        [(1, Ev.stderrData 0 "frame=  12")]).srv.stats.isLive = true)
    ∧ (((run (boot 0 (fun _ => false) [])
        [(1, Ev.stderrData 0 "frame=  12")]).srv.stats.startTime).isSome = true) :=
  ⟨by decide, C1_live_implies_startTime 0 (fun _ => false) []
      [(1, Ev.stderrData 0 "frame=  12")] (by decide)⟩

/-- **C4, counterexample.**  The claim says a single failed deletion is
logged and the remaining matching files are still deleted.  In the code
the `try`/`catch` wraps the whole `forEach`, so the first throwing
`unlinkSync` aborts the loop mid-listing: with listing
`["a.ts", "b.ts", "c.ts"]` where only the unlink of `"b.ts"` throws,
`"a.ts"` is deleted but `"c.ts"` — matching and deletable — is never
attempted and survives. -/
theorem C4_counterexample :
    clearLoop (fun f => f == "b.ts") ["a.ts", "b.ts", "c.ts"]
      = (["b.ts", "c.ts"], ["a.ts"])
    ∧ isHLSFile "c.ts" = true
    ∧ (fun f : String => f == "b.ts") "c.ts" = false := by
  refine ⟨by rfl, by decide, by decide⟩

/-- **C4, amended.**  Cleanup is coarse-grained, not per-file: wherever
the first matching file whose deletion throws sits in the listing, the
matching files before it are deleted, and it and every later file
(matching or not) are left untouched — the caught error is logged once
and the function returns normally; when no matching file fails, all
matching files are deleted in listing order and every non-matching file
survives. -/
theorem C4_clearHLSBuffer_abort (fails : String → Bool) (f : String)
    (pre post fs : List String) :
    ((∀ g ∈ pre, isHLSFile g = true → fails g = false) →
      isHLSFile f = true → fails f = true →
      clearLoop fails (pre ++ f :: post)
        = (pre.filter (fun g => !isHLSFile g) ++ f :: post,
           pre.filter (fun g => isHLSFile g)))
    ∧ ((∀ g ∈ fs, isHLSFile g = true → fails g = false) →
      clearLoop fails fs
        = (fs.filter (fun g => !isHLSFile g), fs.filter (fun g => isHLSFile g))) := by
  constructor
  · intro hpre hm hf
    induction pre with
    | nil => simp [clearLoop, hm, hf]
    | cons g gs ih =>
      have hok' : ∀ x ∈ gs, isHLSFile x = true → fails x = false := by
        intro x hx
        exact hpre x (List.mem_cons_of_mem g hx)
      by_cases hg : isHLSFile g = true
      · have hgf : fails g = false := hpre g (List.mem_cons_self g gs) hg
        simp [clearLoop, hg, hgf, ih hok', List.filter]
      · simp at hg
        simp [clearLoop, hg, ih hok', List.filter]
  · intro hok
    induction fs with
    | nil => rfl
    | cons g gs ih =>
      have hok' : ∀ x ∈ gs, isHLSFile x = true → fails x = false := by
        intro x hx
        exact hok x (List.mem_cons_of_mem g hx)
      by_cases hm : isHLSFile g = true
      · have hf : fails g = false := hok g (List.mem_cons_self g gs) hm
        simp [clearLoop, hm, hf, ih hok', List.filter]
      · simp at hm
        simp [clearLoop, hm, ih hok', List.filter]

/-- **C4, witness.**  The amended theorem at concrete inputs: a matching
file that fails mid-listing lets the earlier matching file be deleted
but aborts before the later one, and a failure-free listing is split
into survivors and deletions. -/
theorem C4_witness :
    clearLoop (fun f => f == "b.ts") (["a.ts", "x.txt"] ++ "b.ts" :: ["c.ts"])
      = (List.filter (fun g => !isHLSFile g) ["a.ts", "x.txt"] ++ "b.ts" :: ["c.ts"],
         List.filter (fun g => isHLSFile g) ["a.ts", "x.txt"])
    ∧ clearLoop (fun f => f == "b.ts") ["x.ts", "y.txt", "z.m3u8"]
        = (List.filter (fun g => !isHLSFile g) ["x.ts", "y.txt", "z.m3u8"],
           List.filter (fun g => isHLSFile g) ["x.ts", "y.txt", "z.m3u8"]) :=
  ⟨(C4_clearHLSBuffer_abort (fun f => f == "b.ts") "b.ts" ["a.ts", "x.txt"]
      ["c.ts"] []).1 (by decide) (by decide) (by decide),
   (C4_clearHLSBuffer_abort (fun f => f == "b.ts") "x" [] []
      ["x.ts", "y.txt", "z.m3u8"]).2 (by decide)⟩

/-- **C2, counterexample.**  `stop()` does not prevent a pending restart
timer from spawning.  Boot at clock 0, let ffmpeg exit at clock 2 (a
restart timer is now pending), call `stop()` at clock 3, and let the
timer fire at clock 4: the callback calls `start()` unconditionally, so
a second spawn (pid 1) happens after `stop()` — the spawn log grows from
one entry to two. -/
theorem C2_counterexample :
    ((run (boot 0 (fun _ => false) [])
        [(2, Ev.close 0 0), (3, Ev.stopCall)]).spawnLog = [0])
    ∧ ((run (boot 0 (fun _ => false) [])
        [(2, Ev.close 0 0), (3, Ev.stopCall), (4, Ev.restartTimer)]).spawnLog
        = [0, 1]) := by
  constructor <;> rfl

/-- **C2, amended.**  The timer callback performs no still-active check
and `stop()` does not cancel the timeout: from any state with a restart
timer pending, calling `stop()` and then letting the timer fire always
performs a new spawn.  (The shipped program only avoids this because its
signal handlers call `process.exit` immediately after `stop()`.) -/
theorem C2_stop_does_not_cancel_restart (w : World) (t t' : Nat)
    (hp : 0 < w.pendingRestarts) :
    (step t' Ev.restartTimer (step t Ev.stopCall w)).spawnLog
      = w.spawnLog ++ [(step t Ev.stopCall w).nextPid] := by
  have hp' : ¬ (stop w).pendingRestarts = 0 := by
    rw [stop_pendingRestarts]
    omega
  show (onRestartTimer t' (stop w)).spawnLog = w.spawnLog ++ [(stop w).nextPid]
  rw [onRestartTimer, if_neg hp', start_spawnLog]
  simp [stop_spawnLog]

/-- **C2, witness.**  The amended theorem at the concrete state reached
after boot and an engine exit: one timer is pending, and stop-then-timer
spawns pid 1. -/
theorem C2_witness :
    (0 < (run (boot 0 (fun _ => false) []) [(2, Ev.close 0 0)]).pendingRestarts)
    ∧ ((step 4 Ev.restartTimer
          (step 3 Ev.stopCall
            (run (boot 0 (fun _ => false) []) [(2, Ev.close 0 0)]))).spawnLog
        = (run (boot 0 (fun _ => false) []) [(2, Ev.close 0 0)]).spawnLog
          ++ [(step 3 Ev.stopCall
                (run (boot 0 (fun _ => false) []) [(2, Ev.close 0 0)])).nextPid]) :=
  ⟨by decide,
   C2_stop_does_not_cancel_restart
     (run (boot 0 (fun _ => false) []) [(2, Ev.close 0 0)]) 3 4 (by decide)⟩

/-- **C3, counterexample.**  The claim says a spawn failure triggers no
buffer clear and schedules no new spawn.  A failed spawn delivers the
`error` event and then the `close` event for the never-started child, so
the close handler runs its ordinary path: boot at clock 0 (one cleanup
from `start()`, `clearCalls = 1`), deliver the spawn-failure `error` at
clock 1 and the accompanying `close` at clock 2 — a second cleanup
invocation happens and a restart timer is now pending — and when that
timer fires at clock 4 a new spawn (pid 1) occurs. -/
theorem C3_counterexample :
    ((run (boot 0 (fun _ => false) [])
        [(1, Ev.spawnError 0), (2, Ev.close 0 (-2))]).clearCalls = 2)
    ∧ ((run (boot 0 (fun _ => false) [])
        [(1, Ev.spawnError 0), (2, Ev.close 0 (-2))]).pendingRestarts = 1)
    ∧ ((run (boot 0 (fun _ => false) [])
        [(1, Ev.spawnError 0), (2, Ev.close 0 (-2)), (4, Ev.restartTimer)]).spawnLog
        = [0, 1]) := by
  refine ⟨rfl, rfl, rfl⟩

/-- **C3, amended.**  The spawn failure itself is reported as a distinct
event and the `error` handler changes nothing — stats, handle,
directory, timers and spawn log are untouched and the session stays
not-live — but the failure does not escape the restart loop: the `close`
event the runtime delivers for the failed child drives the ordinary exit
path, performing a buffer-clear invocation and scheduling a restart
timer whose callback spawns again, so a consistently failing spawn
retries without bound. -/
theorem C3_spawn_failure_retries (w : World) (t t' t'' : Nat) (pid : Nat)
    (c : Int) (h : (w.sessions.lookup pid).isSome = true) :
    ((step t (Ev.spawnError pid) w).srv = w.srv)
    ∧ ((step t (Ev.spawnError pid) w).hlsFiles = w.hlsFiles)
    ∧ ((step t (Ev.spawnError pid) w).clearCalls = w.clearCalls)
    ∧ ((step t (Ev.spawnError pid) w).pendingRestarts = w.pendingRestarts)
    ∧ ((step t (Ev.spawnError pid) w).spawnLog = w.spawnLog)
    ∧ ((step t (Ev.spawnError pid) w).spawnFailLog = w.spawnFailLog + 1)
    ∧ ((step t' (Ev.close pid c) (step t (Ev.spawnError pid) w)).clearCalls
        = w.clearCalls + 1)
    ∧ ((step t' (Ev.close pid c) (step t (Ev.spawnError pid) w)).pendingRestarts
        = w.pendingRestarts + 1)
    ∧ ((step t' (Ev.close pid c) (step t (Ev.spawnError pid) w)).srv.stats.isLive
        = false)
    ∧ ((step t' (Ev.close pid c) (step t (Ev.spawnError pid) w)).srv.stats.startTime
        = w.srv.stats.startTime)
    ∧ ((step t'' Ev.restartTimer
          (step t' (Ev.close pid c) (step t (Ev.spawnError pid) w))).spawnLog
        = w.spawnLog ++ [w.nextPid]) := by
  rcases Option.isSome_iff_exists.mp h with ⟨f, hf⟩
  simp only [step, onSpawnError, onClose, hf, onRestartTimer, clearHLSBuffer]
  simp [start_spawnLog]

/-- **C3, witness.**  The amended theorem at the boot state for the
just-spawned child pid 0: the failure is reported, the follow-up close
schedules a restart, and the timer respawns. -/
theorem C3_witness :
    (((boot 0 (fun _ => false) ["old.ts"]).sessions.lookup 0).isSome = true)
    ∧ ((step 1 (Ev.spawnError 0) (boot 0 (fun _ => false) ["old.ts"])).spawnFailLog
        = (boot 0 (fun _ => false) ["old.ts"]).spawnFailLog + 1)
    ∧ ((step 2 (Ev.close 0 (-2))
          (step 1 (Ev.spawnError 0) (boot 0 (fun _ => false) ["old.ts"]))).pendingRestarts
        = (boot 0 (fun _ => false) ["old.ts"]).pendingRestarts + 1)
    ∧ ((step 4 Ev.restartTimer
          (step 2 (Ev.close 0 (-2))
            (step 1 (Ev.spawnError 0) (boot 0 (fun _ => false) ["old.ts"])))).spawnLog
        = (boot 0 (fun _ => false) ["old.ts"]).spawnLog
          ++ [(boot 0 (fun _ => false) ["old.ts"]).nextPid]) :=
  ⟨by decide,
   (C3_spawn_failure_retries (boot 0 (fun _ => false) ["old.ts"]) 1 2 4 0 (-2)
      (by decide)).2.2.2.2.2.1,
   (C3_spawn_failure_retries (boot 0 (fun _ => false) ["old.ts"]) 1 2 4 0 (-2)
      (by decide)).2.2.2.2.2.2.2.1,
   (C3_spawn_failure_retries (boot 0 (fun _ => false) ["old.ts"]) 1 2 4 0 (-2)
      (by decide)).2.2.2.2.2.2.2.2.2.2⟩

/-- **C5.**  Calling `stop()` twice in a row: the first call kills and
releases the handle and runs one cleanup; the second call finds the
handle null, so it sends no signal, and its `clearHLSBuffer()` deletes
nothing (the matching files it could delete are gone, and with a fixed
failure oracle a previously failing file fails again at once), so the
directory, the deletion log, the kill log, the spawn log and the pending
timers are all exactly as after the first call. -/
theorem C5_stop_idempotent (w : World) (t t' : Nat) :
    ((step t' Ev.stopCall (step t Ev.stopCall w)).hlsFiles
        = (step t Ev.stopCall w).hlsFiles)
    ∧ ((step t' Ev.stopCall (step t Ev.stopCall w)).deleteLog
        = (step t Ev.stopCall w).deleteLog)
    ∧ ((step t' Ev.stopCall (step t Ev.stopCall w)).killLog
        = (step t Ev.stopCall w).killLog)
    ∧ ((step t Ev.stopCall w).srv.ffmpegProcess = none)
    ∧ ((step t' Ev.stopCall (step t Ev.stopCall w)).srv.ffmpegProcess = none)
    ∧ ((step t' Ev.stopCall (step t Ev.stopCall w)).pendingRestarts
        = (step t Ev.stopCall w).pendingRestarts)
    ∧ ((step t' Ev.stopCall (step t Ev.stopCall w)).spawnLog
        = (step t Ev.stopCall w).spawnLog) := by
  simp only [step]
  have h1 : (stop w).srv.ffmpegProcess = none := stop_ffmpegProcess w
  refine ⟨?_, ?_, ?_, h1, stop_ffmpegProcess _, stop_pendingRestarts _, stop_spawnLog _⟩
  · rw [stop_hlsFiles (stop w), stop_unlinkFails, stop_hlsFiles]
    rw [clearLoop_idem]
  · rw [stop_deleteLog (stop w), stop_unlinkFails, stop_hlsFiles]
    rw [clearLoop_idem]
    simp
  · exact stop_killLog_of_none (stop w) h1

/-- **C6.**  The `close` handler is exit-code agnostic and drives the
single cleanup-then-restart path: for any two exit codes the resulting
states are identical, and whenever the handler runs (a session is
registered for the pid) it marks the session not live, performs exactly
one buffer-clear invocation — the directory is already clear when the
restart timer is scheduled — schedules one restart timer, and spawns
nothing itself. -/
theorem C6_close_uniform (w : World) (pid : Nat) (c c' : Int) (t t' : Nat) :
    (step t (Ev.close pid c) w = step t' (Ev.close pid c') w)
    ∧ ((w.sessions.lookup pid).isSome = true →
        ((step t (Ev.close pid c) w).srv.stats.isLive = false)
        ∧ ((step t (Ev.close pid c) w).clearCalls = w.clearCalls + 1)
        ∧ ((step t (Ev.close pid c) w).hlsFiles
            = (clearLoop w.unlinkFails w.hlsFiles).1)
        ∧ ((step t (Ev.close pid c) w).pendingRestarts = w.pendingRestarts + 1)
        ∧ ((step t (Ev.close pid c) w).spawnLog = w.spawnLog)) := by
  constructor
  · rfl
  · intro h
    simp only [step, onClose]
    cases hl : w.sessions.lookup pid with
    | none => simp [hl] at h
    | some f => simp [clearHLSBuffer]

/-- **C6, witness.**  The theorem at the boot state: closing pid 0 with
code 0 equals closing with code 1, marks not-live, clears once and
schedules one restart. -/
theorem C6_witness :
    (((boot 0 (fun _ => false) ["seg0.ts"]).sessions.lookup 0).isSome = true)
    ∧ ((step 2 (Ev.close 0 0) (boot 0 (fun _ => false) ["seg0.ts"])).srv.stats.isLive
        = false)
    ∧ ((step 2 (Ev.close 0 0) (boot 0 (fun _ => false) ["seg0.ts"])).pendingRestarts
        = (boot 0 (fun _ => false) ["seg0.ts"]).pendingRestarts + 1) :=
  ⟨by decide,
   ((C6_close_uniform (boot 0 (fun _ => false) ["seg0.ts"]) 0 0 1 2 3).2
      (by decide)).1,
   ((C6_close_uniform (boot 0 (fun _ => false) ["seg0.ts"]) 0 0 1 2 3).2
      (by decide)).2.2.2.1⟩

/-- **C7.**  The live transition fires exactly once per session: the
first progress-marker chunk of a not-yet-live session sets the whole
stats record in one assignment (live flag, start time, artifact path),
and once the session is live every further stderr chunk — progress
chunk, error chunk or anything else — leaves the stats record untouched,
so the detector never reverts from Live and never re-fires the side
effects. -/
theorem C7_live_fires_once (w : World) (t pid : Nat) (chunk outFile : String) :
    (w.sessions.lookup pid = some outFile →
      w.srv.stats.isLive = false →
      hasProgressMarker chunk = true →
      (step t (Ev.stderrData pid chunk) w).srv.stats
        = { startTime := some t, isLive := true, currentFile := some outFile })
    ∧ (w.srv.stats.isLive = true →
      (step t (Ev.stderrData pid chunk) w).srv.stats = w.srv.stats) := by
  constructor
  · intro hl hnl hp
    simp [step, onStderrData, hl, hp, hnl]
  · intro hlive
    simp only [step, onStderrData]
    cases hl : w.sessions.lookup pid with
    | none => rfl
    | some f =>
      by_cases hp : hasProgressMarker chunk = true
      · simp [hp, hlive]
      · simp at hp
        by_cases he : hasErrorMarker chunk = true <;> simp [hp, he]

/-- **C7, witness.**  A concrete session: the first progress chunk takes
the boot state live with the session's artifact path, and a second
progress chunk then leaves the stats unchanged. -/
theorem C7_witness :
    ((step 1 (Ev.stderrData 0 "frame=  12 fps") (boot 0 (fun _ => false) [])).srv.stats
      = { startTime := some 1, isLive := true,
          currentFile := some (outputFileAt 0) })
    ∧ ((step 2 (Ev.stderrData 0 "frame=  24 fps")
          (step 1 (Ev.stderrData 0 "frame=  12 fps")
            (boot 0 (fun _ => false) []))).srv.stats
        = (step 1 (Ev.stderrData 0 "frame=  12 fps")
            (boot 0 (fun _ => false) [])).srv.stats) :=
  ⟨(C7_live_fires_once (boot 0 (fun _ => false) []) 1 0 "frame=  12 fps"
      (outputFileAt 0)).1 (by decide) (by decide) (by decide),
   (C7_live_fires_once
      (step 1 (Ev.stderrData 0 "frame=  12 fps") (boot 0 (fun _ => false) []))
      2 0 "frame=  24 fps" (outputFileAt 0)).2 (by decide)⟩

/-- **C8, counterexample.**  The claim places the assignment of
`stats.currentFile` at spawn time.  At the boot state a session was just
spawned (pid 0, recording path registered in its closure), yet
`stats.currentFile` is still `null` — the assignment only happens in the
first-frame branch of the stderr handler, not at spawn. -/
theorem C8_counterexample :
    ((boot 0 (fun _ => false) []).spawnLog = [0])
    ∧ ((boot 0 (fun _ => false) []).sessions.lookup 0 = some (outputFileAt 0))
    ∧ ((boot 0 (fun _ => false) []).srv.stats.currentFile = none) := by
  refine ⟨rfl, rfl, rfl⟩

/-- **C8, amended.**  The recording path is computed once at spawn time
and fixed in the session's closure, but `stats.currentFile` is only
assigned that path at the live transition (first progress chunk), at
most once per session: spawning leaves `currentFile` as it was, the
first progress chunk of a not-live session sets it to the spawn-time
path, and while the session is live neither further stderr chunks nor
the exit handler modify it. -/
theorem C8_currentFile_set_on_first_frame (w : World) (t pid : Nat)
    (chunk outFile : String) (c : Int) :
    ((start t w).srv.stats.currentFile = w.srv.stats.currentFile)
    ∧ ((start t w).sessions = (w.nextPid, outputFileAt t) :: w.sessions)
    ∧ (w.sessions.lookup pid = some outFile →
        w.srv.stats.isLive = false →
        hasProgressMarker chunk = true →
        (step t (Ev.stderrData pid chunk) w).srv.stats.currentFile = some outFile)
    ∧ (w.srv.stats.isLive = true →
        (step t (Ev.stderrData pid chunk) w).srv.stats.currentFile
          = w.srv.stats.currentFile)
    ∧ ((step t (Ev.close pid c) w).srv.stats.currentFile
        = w.srv.stats.currentFile) := by
  refine ⟨rfl, rfl, ?_, ?_, ?_⟩
  · intro hl hnl hp
    simp [step, onStderrData, hl, hp, hnl]
  · intro hlive
    simp only [step, onStderrData]
    cases hl : w.sessions.lookup pid with
    | none => rfl
    | some f =>
      by_cases hp : hasProgressMarker chunk = true
      · simp [hp, hlive]
      · simp at hp
        by_cases he : hasErrorMarker chunk = true <;> simp [hp, he]
  · simp only [step, onClose]
    cases hl : w.sessions.lookup pid with
    | none => rfl
    | some f => simp [clearHLSBuffer]

/-- **C8, witness.**  The amended theorem at the boot state: spawning
left `currentFile` at `null`, and the first progress chunk sets it to
the spawn-time recording path. -/
theorem C8_witness :
    ((start 5 (boot 0 (fun _ => false) [])).srv.stats.currentFile
      = (boot 0 (fun _ => false) []).srv.stats.currentFile)
    ∧ ((step 1 (Ev.stderrData 0 "time=00:00:01")
          (boot 0 (fun _ => false) [])).srv.stats.currentFile
        = some (outputFileAt 0)) :=
  ⟨(C8_currentFile_set_on_first_frame (boot 0 (fun _ => false) []) 5 0
      "time=00:00:01" (outputFileAt 0) 0).1,
   (C8_currentFile_set_on_first_frame (boot 0 (fun _ => false) []) 1 0
      "time=00:00:01" (outputFileAt 0) 0).2.2.1 (by decide) (by decide) (by decide)⟩

/-- **C9.**  Branch precedence in the stderr handler: a chunk with a
progress marker never reaches the warning branch (the error log is
unchanged, and if the session is not yet live such a chunk triggers the
live transition even when it also contains an error marker); the warning
branch runs exactly when the chunk has an error marker and no progress
marker. -/
theorem C9_progress_shadows_error (w : World) (t pid : Nat)
    (chunk outFile : String) :
    (hasProgressMarker chunk = true →
      (step t (Ev.stderrData pid chunk) w).errorLog = w.errorLog)
    ∧ (w.sessions.lookup pid = some outFile →
      (step t (Ev.stderrData pid chunk) w).errorLog
        = w.errorLog
          + (if hasErrorMarker chunk && !hasProgressMarker chunk then 1 else 0))
    ∧ (w.sessions.lookup pid = some outFile →
      w.srv.stats.isLive = false →
      hasProgressMarker chunk = true →
      (step t (Ev.stderrData pid chunk) w).srv.stats.isLive = true) := by
  refine ⟨?_, ?_, ?_⟩
  · intro hp
    simp only [step, onStderrData]
    cases hl : w.sessions.lookup pid with
    | none => rfl
    | some f =>
      by_cases hlive : w.srv.stats.isLive = true <;> simp [hp, hlive]
  · intro hl
    simp only [step, onStderrData, hl]
    by_cases hp : hasProgressMarker chunk = true
    · by_cases hlive : w.srv.stats.isLive = true <;> simp [hp, hlive]
    · simp at hp
      by_cases he : hasErrorMarker chunk = true <;> simp [hp, he]
  · intro hl hnl hp
    simp [step, onStderrData, hl, hp, hnl]

/-- **C9, witness.**  A mixed chunk containing both `frame=` and
`error`: the error log stays at zero and the boot session becomes live. -/
theorem C9_witness :
    ((step 1 (Ev.stderrData 0 "frame=  3 error while decoding")
        (boot 0 (fun _ => false) [])).errorLog
      = (boot 0 (fun _ => false) []).errorLog)
    ∧ ((step 1 (Ev.stderrData 0 "frame=  3 error while decoding")
        (boot 0 (fun _ => false) [])).srv.stats.isLive = true)
    ∧ hasErrorMarker "frame=  3 error while decoding" = true :=
  ⟨(C9_progress_shadows_error (boot 0 (fun _ => false) []) 1 0
      "frame=  3 error while decoding" (outputFileAt 0)).1 (by decide),
   (C9_progress_shadows_error (boot 0 (fun _ => false) []) 1 0
      "frame=  3 error while decoding" (outputFileAt 0)).2.2
      (by decide) (by decide) (by decide),
   by decide⟩

/-- **C10.**  `getStats()` is a pure snapshot: serving `/api/stats`
returns the state unchanged (same `startTime`, `isLive`, `currentFile`,
same handle, same whole world), and two calls with no intervening event
agree on `isLive` and `currentFile` (only `uptime` depends on the
clock). -/
theorem C10_getStats_pure (w : World) (now now' : Nat) :
    ((apiStatsStep now w).2 = w)
    ∧ ((apiStatsStep now w).2.srv.stats.startTime = w.srv.stats.startTime)
    ∧ ((apiStatsStep now w).2.srv.stats.isLive = w.srv.stats.isLive)
    ∧ ((apiStatsStep now w).2.srv.stats.currentFile = w.srv.stats.currentFile)
    ∧ ((apiStatsStep now w).2.srv.ffmpegProcess = w.srv.ffmpegProcess)
    ∧ ((apiStatsStep now' (apiStatsStep now w).2).1.isLive
        = (apiStatsStep now w).1.isLive)
    ∧ ((apiStatsStep now' (apiStatsStep now w).2).1.currentFile
        = (apiStatsStep now w).1.currentFile) :=
  ⟨rfl, rfl, rfl, rfl, rfl, rfl, rfl⟩

end SRTStream
